import Mathlib

/-!
Verification of the PIC18F1230 TMR0 demo (`src/Examples/C18/PIC18Extd/src/main.c`).

The program keeps a one-bit Timeout Flag (`Flags.Bit.Timeout`) shared between a
high-priority timer interrupt handler (`InterruptHandlerHigh`) and a polling
main loop (`doloop`).  The handler clears the hardware overflow-pending bit
`TMR0IF`, sets the Timeout Flag and toggles the LED output `LATB0`; the loop
reads the flag byte through `getFlags`, and when the Timeout bit is set it
records `Running`, clears the flag and copies `LATB0` to `LATB7`; otherwise it
records `Stopped`.  Each iteration also runs a demonstration
`strcmp`/`strncpy` pair on a 16-byte global `buffer`, and finally stores the
recorded state into the global `State`.

The development embeds the C state as a Lean structure, the handler and one
uninterrupted loop iteration as functions, and, for the interleaving
properties, the loop as a program-counter machine whose statements are atomic
steps between which the handler may run.
-/

namespace C18Demo

/-- The `enum TimerState { Running, Stopped }` of main.c. -/
inductive TimerState
  | Running
  | Stopped
deriving DecidableEq, Repr

/-- The `union TimerFlags` byte: a one-bit `Timeout` field plus seven unused
`None` bits.  All accesses in the program go through either the `Timeout`
bitfield, the whole-byte write `Flags.Byte = 0`, or the whole-byte copy in
`getFlags`, so a record of the two fields embeds the byte faithfully. -/
structure TimerFlags where
  timeout : Bool
  noneBits : Nat
deriving DecidableEq, Repr

/-- The global state of main.c that the program reads or writes:
the flag byte `Flags`, the two LED output bits `LATB0` and `LATB7`, the
hardware overflow-pending bit `TMR0IF`, the 16-byte `char buffer[16]`,
the `static enum TimerState state` local of `doloop`, and the global
`State`. -/
structure MachState where
  flags : TimerFlags
  latb0 : Bool
  latb7 : Bool
  tmr0if : Bool
  buffer : List Nat
  stateVar : TimerState
  bigState : TimerState
deriving DecidableEq, Repr

/-- `static union TimerFlags getFlags(void) { return Flags; }` — the byte
copy of the flag byte that the loop reads. -/
def getFlags (s : MachState) : TimerFlags :=
  s.flags

/-- `void InterruptHandlerHigh ()`: if `INTCONbits.TMR0IF` is set, clear it,
set `Flags.Bit.Timeout`, and toggle `LATBbits.LATB0`; otherwise do nothing. -/
def InterruptHandlerHigh (s : MachState) : MachState :=
  if s.tmr0if then
    { s with tmr0if := false,
             flags := { s.flags with timeout := true },
             latb0 := !s.latb0 }
  else s

/-- A timer-overflow event: the hardware raises `TMR0IF` and the handler
runs, observing the overflow-pending indicator set. -/
def overflowEvent (s : MachState) : MachState :=
  InterruptHandlerHigh { s with tmr0if := true }

/-- The bytes of the C string literal `"abc"`, terminator included. -/
def abcLit : List Nat := [97, 98, 99, 0]

/-- The bytes of the C string literal `"def"`, terminator included. -/
def defLit : List Nat := [100, 101, 102, 0]

/-- C `strcmp`: compare byte by byte; at the first difference return the
difference of the bytes, and return 0 when a common terminator is reached. -/
def strcmp : List Nat → List Nat → Int
  | x :: xs, y :: ys =>
      if x = y then (if x = 0 then 0 else strcmp xs ys)
      else (x : Int) - (y : Int)
  | _, _ => 0

/-- The `n` bytes that C `strncpy(dst, src, n)` writes: bytes of `src` up to
its terminator, then zero padding up to `n`. -/
def strncpyWritten : List Nat → Nat → List Nat
  | _, 0 => []
  | [], n + 1 => List.replicate (n + 1) 0
  | x :: xs, n + 1 =>
      if x = 0 then List.replicate (n + 1) 0 else x :: strncpyWritten xs n

/-- Overwrite `bs.length` bytes of `dst` starting at offset `off`. -/
def listOverwrite (dst : List Nat) (off : Nat) (bs : List Nat) : List Nat :=
  dst.take off ++ bs ++ dst.drop (off + bs.length)

/-- One uninterrupted iteration of the `while` body of `doloop`:
read the flag byte through `getFlags`; on Timeout set `state = Running`,
clear `Flags.Bit.Timeout` and copy `LATB0` to `LATB7`, else set
`state = Stopped`; if `strcmp("abc", buffer) == 0` then
`strncpy(buffer+3, "def", 3)`; finally `State = state`. -/
def doloopBody (s : MachState) : MachState :=
  let flg := getFlags s
  let s1 :=
    if flg.timeout then
      { s with stateVar := TimerState.Running,
               flags := { s.flags with timeout := false },
               latb7 := s.latb0 }
    else
      { s with stateVar := TimerState.Stopped }
  let s2 :=
    if strcmp abcLit s1.buffer = 0 then
      { s1 with buffer := listOverwrite s1.buffer 3 (strncpyWritten defLit 3) }
    else s1
  { s2 with bigState := s2.stateVar }

/-- `void doloop(register char loop)` with a fuel bound on the number of
iterations: `some s` means the `while (loop)` loop exited with state `s`,
`none` means the fuel ran out with the loop still running.  The parameter
`loop` is never written inside the loop, exactly as in the source. -/
def doloopFuel (loop : Nat) : Nat → MachState → Option MachState
  | 0, s => if loop = 0 then some s else none
  | fuel + 1, s => if loop = 0 then some s else doloopFuel loop fuel (doloopBody s)

/-!
## The loop as a program-counter machine

For the interleaving properties the loop body is split into its statements,
each an atomic step; the interrupt handler may run between any two of them.
-/

/-- Program counter inside the `while` body of `doloop`, one value per
statement: the `getFlags` read, the test of `flg.Bit.Timeout`, the
`state = Running` store, the `Flags.Bit.Timeout = 0` clear, the
`LATB7 = LATB0` copy, the `state = Stopped` store, the `strcmp` test,
the `strncpy` call, and the final `State = state` store. -/
inductive Pc
  | pRead
  | pBranch
  | pRun1
  | pClear
  | pCopy
  | pStop
  | pStrTest
  | pStrCpy
  | pWriteState
deriving DecidableEq, Repr

/-- An action of the interleaved system: one atomic statement of the loop,
or one timer-overflow event (a complete handler run). -/
inductive Act
  | lstep
  | event
deriving DecidableEq, Repr

/-- A configuration: the loop's program counter, the register copy `flg`
that `getFlags` returned, and the shared machine state. -/
structure Config where
  pc : Pc
  flg : TimerFlags
  s : MachState
deriving DecidableEq, Repr

/-- One atomic statement of `doloop`, at the current program counter. -/
def loopMicro (c : Config) : Config :=
  match c.pc with
  | Pc.pRead => { c with flg := getFlags c.s, pc := Pc.pBranch }
  | Pc.pBranch => { c with pc := if c.flg.timeout then Pc.pRun1 else Pc.pStop }
  | Pc.pRun1 =>
      { c with pc := Pc.pClear, s := { c.s with stateVar := TimerState.Running } }
  | Pc.pClear =>
      { c with pc := Pc.pCopy,
               s := { c.s with flags := { c.s.flags with timeout := false } } }
  | Pc.pCopy =>
      { c with pc := Pc.pStrTest, s := { c.s with latb7 := c.s.latb0 } }
  | Pc.pStop =>
      { c with pc := Pc.pStrTest, s := { c.s with stateVar := TimerState.Stopped } }
  | Pc.pStrTest =>
      { c with pc := if strcmp abcLit c.s.buffer = 0 then Pc.pStrCpy else Pc.pWriteState }
  | Pc.pStrCpy =>
      { c with pc := Pc.pWriteState,
               s := { c.s with buffer := listOverwrite c.s.buffer 3 (strncpyWritten defLit 3) } }
  | Pc.pWriteState =>
      { c with pc := Pc.pRead, s := { c.s with bigState := c.s.stateVar } }

/-- One step of the interleaved system: a loop statement, or an overflow
event (which preempts the loop, leaving its program counter and register
untouched). -/
def step : Act → Config → Config
  | Act.lstep, c => loopMicro c
  | Act.event, c => { c with s := overflowEvent c.s }

/-- The configuration after the first `n` actions of the schedule `acts`. -/
def run (acts : Nat → Act) (c0 : Config) : Nat → Config
  | 0 => c0
  | n + 1 => step (acts n) (run acts c0 n)

/-- Number of loop iterations among the first `n` steps that observe the
Timeout Flag set: steps executing the flag test with the read copy set. -/
def obsCount (acts : Nat → Act) (c0 : Config) : Nat → Nat
  | 0 => 0
  | n + 1 =>
      obsCount acts c0 n +
        (if acts n = Act.lstep ∧ (run acts c0 n).pc = Pc.pBranch ∧
            (run acts c0 n).flg.timeout = true then 1 else 0)

/-- Number of timer-overflow events among the first `n` steps. -/
def eventCount (acts : Nat → Act) : Nat → Nat
  | 0 => 0
  | n + 1 => eventCount acts n + (if acts n = Act.event then 1 else 0)

/-- The configuration right after `main`'s initialization: `Flags.Byte = 0`,
`TMR0IF` clear, the loop about to execute its first `getFlags` read.  The
LED bits, the buffer, and the two `TimerState` variables are parameters
(`LATB` is not initialized by `main`; C statics start at the first enum
value). -/
def initConfig (b0 b7 : Bool) (buf : List Nat) (st0 : TimerState) : Config :=
  { pc := Pc.pRead,
    flg := { timeout := false, noneBits := 0 },
    s := { flags := { timeout := false, noneBits := 0 },
           latb0 := b0, latb7 := b7, tmr0if := false,
           buffer := buf, stateVar := st0, bigState := st0 } }

/-- The no-loss property as claimed: in every execution from the initialized
configuration in which the overflow events stop at some point `B` while the
loop keeps running, every event eventually gets exactly one loop iteration
observing the Timeout Flag set — the number of observing iterations
converges to the number of events. -/
def NoLossProperty : Prop :=
  ∀ (b0 b7 : Bool) (buf : List Nat) (st0 : TimerState) (acts : Nat → Act) (B : Nat),
    (∀ i, B ≤ i → acts i = Act.lstep) →
    ∃ N, ∀ n, N ≤ n →
      obsCount acts (initConfig b0 b7 buf st0) n = eventCount acts B

/-!
## Single-effect decomposition of the handler body

The three statements of the guarded branch of `InterruptHandlerHigh`, in
source order, used to state that the handler performs exactly these effects
in exactly this order.
-/

/-- `INTCONbits.TMR0IF = 0` — clear the overflow-pending indicator. -/
def clearTMR0IF (s : MachState) : MachState :=
  { s with tmr0if := false }

/-- `Flags.Bit.Timeout = 1` — set the Timeout Flag. -/
def setTimeoutFlag (s : MachState) : MachState :=
  { s with flags := { s.flags with timeout := true } }

/-- `LATBbits.LATB0 = !LATBbits.LATB0` — toggle LED-A. -/
def toggleLatb0 (s : MachState) : MachState :=
  { s with latb0 := !s.latb0 }

/-- A sample machine state used by the closed witness theorems. -/
def sampleState : MachState :=
  { flags := { timeout := false, noneBits := 0 },
    latb0 := false, latb7 := true, tmr0if := true,
    buffer := List.replicate 16 0,
    stateVar := TimerState.Running, bigState := TimerState.Running }

/-- A machine state whose buffer holds the C string `"abc"` in 16 bytes. -/
def abcState : MachState :=
  { sampleState with buffer := [97, 98, 99, 0, 0, 0, 0, 0, 0, 0, 0, 0, 0, 0, 0, 0] }

/-- A configuration at the `getFlags` read with the Timeout Flag clear. -/
def sampleConfig : Config :=
  { pc := Pc.pRead, flg := { timeout := false, noneBits := 0 }, s := sampleState }

/-- A configuration at the flag-clearing statement with the flag set. -/
def clearConfig : Config :=
  { pc := Pc.pClear, flg := { timeout := true, noneBits := 0 },
    s := setTimeoutFlag sampleState }

/-- Weight of an observation pending in the loop's register copy: the flag
test is about to run and the copied Timeout bit is set. -/
def wB (c : Config) : Nat :=
  if c.pc = Pc.pBranch ∧ c.flg.timeout = true then 1 else 0

/-- Weight of a set pending in the shared flag byte, not counting the one
already captured by the register copy between the test and the clear. -/
def wF (c : Config) : Nat :=
  if c.s.flags.timeout = true ∧
      ¬(c.flg.timeout = true ∧
        (c.pc = Pc.pBranch ∨ c.pc = Pc.pRun1 ∨ c.pc = Pc.pClear)) then 1 else 0

/-- The interleaving named by claim C1: from the `getFlags` read, the loop
reads the flag byte, then an overflow event preempts it between the read and
the clear, then the loop runs its test, `Running` store, clear and LED copy
statements. -/
def coalesceRun (s : MachState) : Config :=
  loopMicro (loopMicro (loopMicro (loopMicro
    (step Act.event (loopMicro { pc := Pc.pRead,
                                 flg := { timeout := false, noneBits := 0 },
                                 s := s })))))

/-- The schedule of the counterexample: an overflow event; the loop's
`getFlags` read, flag test (the one observation) and `Running` store; a
second overflow event landing between that read and the clear; and from
then on only loop statements, beginning with the clear that wipes the
second event's set. -/
def cxActs : Nat → Act :=
  fun i => if i = 0 ∨ i = 4 then Act.event else Act.lstep

/-- The initial configuration of the counterexample: both LEDs low, the
buffer zeroed as C zero-initializes globals. -/
def cxInit : Config :=
  initConfig false false (List.replicate 16 0) TimerState.Running

/-- Claim C2: whenever the handler runs with the overflow-pending indicator
`TMR0IF` asserted, it is exactly the composition, in source order, of the
three single-effect statements — clear `TMR0IF`, set the Timeout Flag,
toggle LED-A — and it changes nothing else: `LATB7`, the buffer, the unused
flag bits, the static `state` and the global `State` are untouched. -/
theorem C2_handler_contract (s : MachState) (h : s.tmr0if = true) :
    InterruptHandlerHigh s = toggleLatb0 (setTimeoutFlag (clearTMR0IF s)) ∧
    (InterruptHandlerHigh s).tmr0if = false ∧
    (InterruptHandlerHigh s).flags.timeout = true ∧
    (InterruptHandlerHigh s).latb0 = !s.latb0 ∧
    (InterruptHandlerHigh s).latb7 = s.latb7 ∧
    (InterruptHandlerHigh s).buffer = s.buffer ∧
    (InterruptHandlerHigh s).flags.noneBits = s.flags.noneBits ∧
    (InterruptHandlerHigh s).stateVar = s.stateVar ∧
    (InterruptHandlerHigh s).bigState = s.bigState := by
  simp [InterruptHandlerHigh, toggleLatb0, setTimeoutFlag, clearTMR0IF, h]

/-- Witness for C2 at a concrete state with `TMR0IF` set. -/
theorem C2_handler_contract_witness :
    InterruptHandlerHigh sampleState =
      toggleLatb0 (setTimeoutFlag (clearTMR0IF sampleState)) ∧
    (InterruptHandlerHigh sampleState).tmr0if = false ∧
    (InterruptHandlerHigh sampleState).flags.timeout = true ∧
    (InterruptHandlerHigh sampleState).latb0 = !sampleState.latb0 ∧
    (InterruptHandlerHigh sampleState).latb7 = sampleState.latb7 ∧
    (InterruptHandlerHigh sampleState).buffer = sampleState.buffer ∧
    (InterruptHandlerHigh sampleState).flags.noneBits = sampleState.flags.noneBits ∧
    (InterruptHandlerHigh sampleState).stateVar = sampleState.stateVar ∧
    (InterruptHandlerHigh sampleState).bigState = sampleState.bigState :=
  C2_handler_contract sampleState rfl

/-- Helper: an uninterrupted loop iteration from a state with the Timeout
Flag set clears the flag and copies LED-A to LED-B. -/
theorem doloopBody_observed (s : MachState) (h : s.flags.timeout = true) :
    (doloopBody s).flags.timeout = false ∧ (doloopBody s).latb7 = s.latb0 := by
  simp only [doloopBody, getFlags, h, if_true]
  split <;> simp

/-- Claim C3: an uninterrupted loop iteration that observes the Timeout Flag
set clears the flag and leaves LED-B equal to LED-A's value at the moment of
the observation. -/
theorem C3_mirror (s : MachState) (h : s.flags.timeout = true) :
    (doloopBody s).flags.timeout = false ∧ (doloopBody s).latb7 = s.latb0 :=
  doloopBody_observed s h

/-- Witness for C3 at a concrete state with the Timeout Flag set. -/
theorem C3_mirror_witness :
    (doloopBody (setTimeoutFlag sampleState)).flags.timeout = false ∧
    (doloopBody (setTimeoutFlag sampleState)).latb7 = (setTimeoutFlag sampleState).latb0 :=
  C3_mirror (setTimeoutFlag sampleState) rfl

/-- Claim C5: if two overflow events fire before any loop iteration runs,
LED-A ends equal to its value before the two events (both toggles took
effect), the Timeout Flag is set, and the single subsequent loop iteration
clears the flag and copies the latest LED-A value — the one produced by the
most recent handler run — to LED-B. -/
theorem C5_boundary (s : MachState) :
    (overflowEvent (overflowEvent s)).latb0 = s.latb0 ∧
    (overflowEvent (overflowEvent s)).flags.timeout = true ∧
    (doloopBody (overflowEvent (overflowEvent s))).flags.timeout = false ∧
    (doloopBody (overflowEvent (overflowEvent s))).latb7 =
      (overflowEvent (overflowEvent s)).latb0 := by
  refine ⟨by simp [overflowEvent, InterruptHandlerHigh], ?_, ?_, ?_⟩
  · simp [overflowEvent, InterruptHandlerHigh]
  · exact (doloopBody_observed _ (by simp [overflowEvent, InterruptHandlerHigh])).1
  · exact (doloopBody_observed _ (by simp [overflowEvent, InterruptHandlerHigh])).2

/-- Claim C6: an uninterrupted loop iteration that observes the Timeout Flag
clear changes neither LED, neither flag bit of the flag byte, nor the
overflow-pending indicator. -/
theorem C6_idle (s : MachState) (h : s.flags.timeout = false) :
    (doloopBody s).latb0 = s.latb0 ∧
    (doloopBody s).latb7 = s.latb7 ∧
    (doloopBody s).flags = s.flags ∧
    (doloopBody s).tmr0if = s.tmr0if := by
  simp only [doloopBody, getFlags, h, if_false, Bool.false_eq_true]
  split <;> simp

/-- Witness for C6 at a concrete state with the Timeout Flag clear. -/
theorem C6_idle_witness :
    (doloopBody sampleState).latb0 = sampleState.latb0 ∧
    (doloopBody sampleState).latb7 = sampleState.latb7 ∧
    (doloopBody sampleState).flags = sampleState.flags ∧
    (doloopBody sampleState).tmr0if = sampleState.tmr0if :=
  C6_idle sampleState rfl

/-- Helper: one overflow event always toggles LED-A, because the event
raises `TMR0IF` and the handler therefore takes its guarded branch. -/
theorem overflowEvent_latb0 (s : MachState) :
    (overflowEvent s).latb0 = !s.latb0 := by
  simp [overflowEvent, InterruptHandlerHigh]

/-- Claim C4: after `N` consecutive overflow events (each a handler run that
observes `TMR0IF` set), LED-A equals its initial value XORed with
`N mod 2`. -/
theorem C4_toggle (N : Nat) (s : MachState) :
    (overflowEvent^[N] s).latb0 = xor s.latb0 (N % 2 == 1) := by
  induction N generalizing s with
  | zero => simp
  | succ n ih =>
      rw [Function.iterate_succ_apply, ih, overflowEvent_latb0]
      rcases Nat.even_or_odd n with h | h
      · have h2 : n % 2 = 0 := Nat.even_iff.mp h
        have h3 : (n + 1) % 2 = 1 := by omega
        rw [h2, h3]
        cases s.latb0 <;> rfl
      · have h2 : n % 2 = 1 := Nat.odd_iff.mp h
        have h3 : (n + 1) % 2 = 0 := by omega
        rw [h2, h3]
        cases s.latb0 <;> rfl

/-- Claim C7: `doloop 0` performs zero iterations and terminates with the
state unchanged, for any fuel; `doloop loop` with `loop ≠ 0` (as `main`
calls it, with 1) never terminates — the continue condition `loop` is never
written inside the loop, so every fuel bound is exhausted. -/
theorem C7_doloop_continuation :
    (∀ (fuel : Nat) (s : MachState), doloopFuel 0 fuel s = some s) ∧
    (∀ (loop : Nat), loop ≠ 0 →
      ∀ (fuel : Nat) (s : MachState), doloopFuel loop fuel s = none) := by
  constructor
  · intro fuel s
    cases fuel <;> simp [doloopFuel]
  · intro loop h fuel
    induction fuel with
    | zero => intro s; simp [doloopFuel, h]
    | succ n ih => intro s; simp [doloopFuel, h]; exact ih (doloopBody s)

/-- Witness for C7: with argument 0 the loop exits at once; with `main`'s
argument 1 it is still running after any concrete fuel. -/
theorem C7_doloop_continuation_witness :
    doloopFuel 0 5 sampleState = some sampleState ∧
    doloopFuel 1 5 sampleState = none :=
  ⟨C7_doloop_continuation.1 5 sampleState,
   C7_doloop_continuation.2 1 (by decide) 5 sampleState⟩

/-- Claim C9: every uninterrupted loop iteration ends with the global
`State` equal to `Running` exactly when the Timeout Flag was observed set
and `Stopped` otherwise; and no operation reads `State` — the loop body's
result is entirely independent of the incoming `State`, and the handler
passes `State` through untouched — so its value affects no LED, flag or
buffer output. -/
theorem C9_dead_state (s : MachState) (v : TimerState) :
    (doloopBody s).bigState =
      (if s.flags.timeout then TimerState.Running else TimerState.Stopped) ∧
    doloopBody { s with bigState := v } = doloopBody s ∧
    InterruptHandlerHigh { s with bigState := v } =
      { InterruptHandlerHigh s with bigState := v } := by
  refine ⟨?_, ?_, ?_⟩
  · simp only [doloopBody, getFlags]
    split <;> (split <;> simp)
  · simp only [doloopBody, getFlags]
    split <;> (split <;> simp)
  · simp only [InterruptHandlerHigh]
    split <;> simp

/-- Helper: `strcmp("abc", b)` is zero exactly when `b` starts with
`'a' 'b' 'c'` followed by a terminator. -/
theorem strcmp_abc_cons (b0 b1 b2 b3 : Nat) (rest : List Nat) :
    strcmp abcLit (b0 :: b1 :: b2 :: b3 :: rest) = 0 ↔
      (b0 = 97 ∧ b1 = 98 ∧ b2 = 99 ∧ b3 = 0) := by
  simp only [abcLit, strcmp]
  split_ifs <;> simp_all <;> omega

/-- Helper: the first four bytes of the 16-byte buffer are addressable. -/
theorem list16_decomp (b : List Nat) (hlen : b.length = 16) :
    ∃ b0 b1 b2 b3 rest, b = b0 :: b1 :: b2 :: b3 :: rest := by
  rcases b with _ | ⟨b0, _ | ⟨b1, _ | ⟨b2, _ | ⟨b3, rest⟩⟩⟩⟩
  · simp at hlen
  · simp at hlen
  · simp at hlen
  · simp at hlen
  · exact ⟨b0, b1, b2, b3, rest, rfl⟩

/-- Helper: the buffer after an uninterrupted loop iteration — rewritten
through `strncpy` when `strcmp("abc", buffer)` is zero, untouched
otherwise. -/
theorem doloopBody_buffer (s : MachState) :
    (doloopBody s).buffer =
      (if strcmp abcLit s.buffer = 0 then
        listOverwrite s.buffer 3 (strncpyWritten defLit 3)
      else s.buffer) := by
  simp only [doloopBody, getFlags]
  split <;> (split <;> simp_all)

/-- Helper: when the compare fails, the iteration leaves the buffer as is. -/
theorem doloopBody_buffer_of_ne (s : MachState) (h : strcmp abcLit s.buffer ≠ 0) :
    (doloopBody s).buffer = s.buffer := by
  rw [doloopBody_buffer]
  simp [h]

/-- Helper: once the compare fails, the buffer stays fixed over any number
of further loop iterations. -/
theorem doloopBody_iter_buffer (k : Nat) :
    ∀ s : MachState, strcmp abcLit s.buffer ≠ 0 →
      (doloopBody^[k] s).buffer = s.buffer := by
  induction k with
  | zero => intro s _; simp
  | succ n ih =>
      intro s h
      have hb := doloopBody_buffer_of_ne s h
      rw [Function.iterate_succ_apply, ih (doloopBody s) (by rw [hb]; exact h), hb]

/-- Claim C10: an iteration rewrites the buffer only when it compares equal
to `"abc"` as a C string, and then writes exactly the three bytes
`'d' 'e' 'f'` at offsets 3, 4, 5 — no terminator appended, all other bytes
kept — after which the compare can never succeed again, so every later
iteration leaves the buffer fixed. -/
theorem C10_buffer_rewrite_once (s : MachState) (hlen : s.buffer.length = 16) :
    (strcmp abcLit s.buffer ≠ 0 → (doloopBody s).buffer = s.buffer) ∧
    (strcmp abcLit s.buffer = 0 →
      strncpyWritten defLit 3 = [100, 101, 102] ∧
      (doloopBody s).buffer = s.buffer.take 3 ++ [100, 101, 102] ++ s.buffer.drop 6 ∧
      strcmp abcLit (doloopBody s).buffer ≠ 0 ∧
      ∀ k, (doloopBody^[k] (doloopBody s)).buffer = (doloopBody s).buffer) := by
  constructor
  · exact doloopBody_buffer_of_ne s
  · intro h
    obtain ⟨b0, b1, b2, b3, rest, hb⟩ := list16_decomp s.buffer hlen
    have hvals := (strcmp_abc_cons b0 b1 b2 b3 rest).mp (by rw [hb] at h; exact h)
    obtain ⟨h0, h1, h2, h3⟩ := hvals
    have hbuf : (doloopBody s).buffer =
        s.buffer.take 3 ++ [100, 101, 102] ++ s.buffer.drop 6 := by
      rw [doloopBody_buffer, if_pos h]
      rfl
    have hne : strcmp abcLit (doloopBody s).buffer ≠ 0 := by
      rw [hbuf, hb, h0, h1, h2, h3]
      simp [abcLit, strcmp]
    exact ⟨rfl, hbuf, hne, fun k => doloopBody_iter_buffer k (doloopBody s) hne⟩

/-- Witness for C10 at two concrete buffers: one that fails the compare and
is left untouched, and one holding `"abc"` that gets the single rewrite. -/
theorem C10_buffer_rewrite_once_witness :
    (doloopBody sampleState).buffer = sampleState.buffer ∧
    (doloopBody abcState).buffer =
      abcState.buffer.take 3 ++ [100, 101, 102] ++ abcState.buffer.drop 6 :=
  ⟨(C10_buffer_rewrite_once sampleState (by decide)).1 (by decide),
   ((C10_buffer_rewrite_once abcState (by decide)).2 (by decide)).2.1⟩

/-- Claim C8: across every step of the interleaved system — in particular in
every reachable state after `main`'s `Flags.Byte = 0` — the Timeout Flag
goes from clear to set only through an overflow event (a handler run), and
from set to clear only through the loop's clearing statement; the handler's
write always leaves the flag set, and no loop statement ever sets a clear
flag. -/
theorem C8_flag_write_discipline (c : Config) (a : Act) :
    ((step a c).s.flags.timeout = true ∧ c.s.flags.timeout = false → a = Act.event) ∧
    ((step a c).s.flags.timeout = false ∧ c.s.flags.timeout = true →
      a = Act.lstep ∧ c.pc = Pc.pClear) ∧
    (step Act.event c).s.flags.timeout = true ∧
    (c.s.flags.timeout = false → (loopMicro c).s.flags.timeout = false) := by
  rcases c with ⟨pc, flg, s⟩
  cases a <;> cases pc <;>
    simp [step, loopMicro, overflowEvent, InterruptHandlerHigh, getFlags]

/-- Witness for C8: a concrete flag-raising step is an event, and a concrete
flag-clearing step is the loop's clear statement. -/
theorem C8_flag_write_discipline_witness :
    Act.event = Act.event ∧ (Act.lstep = Act.lstep ∧ clearConfig.pc = Pc.pClear) :=
  ⟨(C8_flag_write_discipline sampleConfig Act.event).1 ⟨rfl, rfl⟩,
   (C8_flag_write_discipline clearConfig Act.lstep).2.1 ⟨rfl, rfl⟩⟩

/-- Helper: one step changes the observation count plus the pending weights
by at most the number of overflow events in the step. -/
theorem measure_step (a : Act) (c : Config) :
    (if a = Act.lstep ∧ c.pc = Pc.pBranch ∧ c.flg.timeout = true then 1 else 0) +
      wB (step a c) + wF (step a c) ≤
    wB c + wF c + (if a = Act.event then 1 else 0) := by
  rcases c with ⟨pc, flg, s⟩
  cases a <;> cases pc <;>
    simp [step, loopMicro, overflowEvent, InterruptHandlerHigh, getFlags, wB, wF] <;>
    split_ifs <;> simp_all

/-- Helper: along any schedule, the observation count plus the pending
weights never exceeds the event count plus the initial pending weights. -/
theorem obs_le_events_general (acts : Nat → Act) (c0 : Config) (n : Nat) :
    obsCount acts c0 n + wB (run acts c0 n) + wF (run acts c0 n) ≤
      eventCount acts n + wB c0 + wF c0 := by
  induction n with
  | zero => simp [obsCount, eventCount, run]
  | succ m ih =>
      have hm := measure_step (acts m) (run acts c0 m)
      simp only [obsCount, eventCount, run]
      omega

/-- Claim C1, amended: signals may be coalesced rather than kept one-to-one.
No iteration observes the Timeout Flag set without an unconsumed prior
overflow event — the observation count never exceeds the event count — and
a handler set landing between the loop's read and its clear is absorbed into
the in-progress observation: the flag ends clear, no separate observing
iteration results, but that same iteration's LED copy, running after the
handler, already carries the event's LED-A toggle to LED-B. -/
theorem C1_coalescing
    (b0 b7 : Bool) (buf : List Nat) (st0 : TimerState)
    (acts : Nat → Act) (n : Nat) (s : MachState) (h : s.flags.timeout = true) :
    obsCount acts (initConfig b0 b7 buf st0) n ≤ eventCount acts n ∧
    (coalesceRun s).s.flags.timeout = false ∧
    (coalesceRun s).s.latb7 = !s.latb0 ∧
    (coalesceRun s).s.latb0 = !s.latb0 := by
  refine ⟨?_, ?_⟩
  · have hgen := obs_le_events_general acts (initConfig b0 b7 buf st0) n
    have hwb : wB (initConfig b0 b7 buf st0) = 0 := by simp [wB, initConfig]
    have hwf : wF (initConfig b0 b7 buf st0) = 0 := by simp [wF, initConfig]
    omega
  · simp [coalesceRun, loopMicro, step, overflowEvent, InterruptHandlerHigh, getFlags, h]

/-- Witness for C1's amended statement, at an all-steps-idle schedule and a
concrete state with the flag pending. -/
theorem C1_coalescing_witness :
    obsCount (fun _ => Act.lstep) (initConfig false false (List.replicate 16 0)
        TimerState.Running) 4 ≤ eventCount (fun _ => Act.lstep) 4 ∧
    (coalesceRun (setTimeoutFlag sampleState)).s.flags.timeout = false ∧
    (coalesceRun (setTimeoutFlag sampleState)).s.latb7 =
      !(setTimeoutFlag sampleState).latb0 ∧
    (coalesceRun (setTimeoutFlag sampleState)).s.latb0 =
      !(setTimeoutFlag sampleState).latb0 :=
  C1_coalescing false false (List.replicate 16 0) TimerState.Running
    (fun _ => Act.lstep) 4 (setTimeoutFlag sampleState) rfl

/-- Helper: from step 5 on, the counterexample schedule is all loop steps. -/
theorem cx_quiesce (i : Nat) (h : 5 ≤ i) : cxActs i = Act.lstep := by
  have h0 : ¬(i = 0 ∨ i = 4) := by omega
  simp [cxActs, h0]

/-- Helper: a loop statement preserves the invariant that the shared flag is
clear and that a pending flag test would read a clear register copy. -/
theorem inv_loopMicro (c : Config)
    (h1 : c.s.flags.timeout = false)
    (h2 : c.pc = Pc.pBranch → c.flg.timeout = false) :
    (loopMicro c).s.flags.timeout = false ∧
    ((loopMicro c).pc = Pc.pBranch → (loopMicro c).flg.timeout = false) := by
  rcases c with ⟨pc, flg, s⟩
  cases pc <;> simp_all [loopMicro, getFlags]
  split_ifs <;> simp_all

/-- Helper: after the coalescing clear at step 6 of the counterexample, the
invariant holds forever. -/
theorem cx_inv (n : Nat) (h : 6 ≤ n) :
    (run cxActs cxInit n).s.flags.timeout = false ∧
    ((run cxActs cxInit n).pc = Pc.pBranch →
      (run cxActs cxInit n).flg.timeout = false) := by
  induction n with
  | zero => omega
  | succ m ih =>
      rcases Nat.lt_or_ge m 6 with hm | hm
      · have hm5 : m = 5 := by omega
        subst hm5
        decide
      · have hstep : cxActs m = Act.lstep := cx_quiesce m (by omega)
        have hprev := ih (by omega)
        have hrun : run cxActs cxInit (m + 1) =
            step (cxActs m) (run cxActs cxInit m) := rfl
        rw [hrun, hstep]
        exact inv_loopMicro _ hprev.1 hprev.2

/-- Helper: the counterexample execution never accumulates more than the one
observation it makes at step 3. -/
theorem cx_obs (n : Nat) : obsCount cxActs cxInit n ≤ 1 := by
  induction n with
  | zero => simp [obsCount]
  | succ m ih =>
      rcases Nat.lt_or_ge m 6 with hm | hm
      · interval_cases m <;> decide
      · have hinv := cx_inv m hm
        have hno : ¬(cxActs m = Act.lstep ∧ (run cxActs cxInit m).pc = Pc.pBranch ∧
            (run cxActs cxInit m).flg.timeout = true) := by
          rintro ⟨_, hpc, hflg⟩
          have := hinv.2 hpc
          simp_all
        simp only [obsCount]
        rw [if_neg hno]
        omega

/-- Counterexample to claim C1: in the execution where a second overflow
event lands between the loop's read of the flag byte and its clear, only
one iteration ever observes the Timeout Flag set although two events fired
— after the second event the clear wipes its set and no later iteration
observes the flag — so the observation count never converges to the event
count: the second set is dropped. -/
theorem C1_counterexample : ¬ NoLossProperty := by
  intro h
  obtain ⟨N, hN⟩ :=
    h false false (List.replicate 16 0) TimerState.Running cxActs 5 cx_quiesce
  have h1 := hN (N + 6) (by omega)
  have h2 : obsCount cxActs (initConfig false false (List.replicate 16 0)
      TimerState.Running) (N + 6) ≤ 1 := cx_obs (N + 6)
  have h3 : eventCount cxActs 5 = 2 := by decide
  rw [h3] at h1
  omega

end C18Demo
